import Mathlib

/-!
# gator — verification of the configuration-synthesis pipeline

Shallow embedding of the gator CNI meta plugin (the current revision: the one
with the `Skip` field, `parseConf`, `generateDownstream`, `delegate` and
`getPluginPath`, which is the revision exercised by `main_test.go`).

JSON documents are modelled by the inductive type `J` (numbers as `Int`; the
claims never involve fractional numbers).  A raw byte string that is fed to a
JSON parser is modelled by `Option J`: `none` stands for bytes that are not
syntactically valid JSON, `some j` for bytes whose parse is `j`.  Within this
abstraction, printing the original stdin bytes is modelled as returning the
input value itself.

The RFC7396 merge-patch primitive is the external library
`github.com/evanphx/json-patch` (v4); `MergePatchV`/`mergePatchRaw` below
transcribe its `doMergePatch`/`mergeDocs`/`merge`/`pruneNulls` functions.
Go map iteration order is immaterial because distinct keys commute; objects
are association lists here and object-level claims are stated through key
lookup, never through list order.
-/

/-- A JSON value (generic view).  Numbers are modelled as integers. -/
inductive J where
  | null
  | bool (b : Bool)
  | num (n : Int)
  | str (s : String)
  | arr (elems : List J)
  | obj (members : List (String × J))

/-- `true` exactly on the JSON literal `null` (Go: a nil `*lazyNode`). -/
def J.isNull : J → Bool
  | .null => true
  | _ => false

/-- Key lookup in a JSON object, Go map indexing `(*doc)[k]`. -/
def lookupKV (kvs : List (String × J)) (k : String) : Option J :=
  (kvs.find? (fun kv => kv.1 == k)).map (·.2)

/-- Go `delete(*doc, k)`. -/
def eraseKey (kvs : List (String × J)) (k : String) : List (String × J) :=
  kvs.filter (fun kv => !(kv.1 == k))

/-- Go `(*doc)[k] = v`: replace in place, append when absent. -/
def setKey (kvs : List (String × J)) (k : String) (v : J) : List (String × J) :=
  match kvs with
  | [] => [(k, v)]
  | kv :: rest =>
    if kv.1 == k then (k, v) :: rest else kv :: setKey rest k v

/-- Key lookup on a whole value: `some` only for objects. -/
def J.lookup (j : J) (k : String) : Option J :=
  match j with
  | .obj kvs => lookupKV kvs k
  | _ => none

/-- The keys of an object value (in list order). -/
def J.keys : J → List String
  | .obj kvs => kvs.map (·.1)
  | _ => []

mutual

/-- json-patch `pruneNulls`: inside objects drop null-valued members
recursively; inside arrays keep the elements but prune inside the non-null
ones; scalars unchanged. -/
def pruneNulls : J → J
  | .obj kvs => .obj (pruneKVs kvs)
  | .arr xs => .arr (pruneArr xs)
  | j => j

/-- json-patch `pruneDocNulls` on the member list of an object. -/
def pruneKVs : List (String × J) → List (String × J)
  | [] => []
  | (k, v) :: rest =>
    if v.isNull then pruneKVs rest else (k, pruneNulls v) :: pruneKVs rest

/-- json-patch `pruneAryNulls` on the element list of an array. -/
def pruneArr : List J → List J
  | [] => []
  | x :: rest =>
    (if x.isNull then x else pruneNulls x) :: pruneArr rest

end

mutual

/-- json-patch `merge(cur, patch, mergeMerge=false)`: when both sides are
objects the members merge recursively; when only the current value is an
object the patch replaces it verbatim; otherwise the patch replaces it with
its nulls pruned. -/
def mergeVals (cur patch : J) : J :=
  match cur, patch with
  | .obj c, .obj p => .obj (mergeKVs c p)
  | .obj _, p => p
  | _, p => pruneNulls p

/-- json-patch `mergeDocs(doc, patch, mergeMerge=false)`: for each patch
member, a null value deletes the key; a value for an absent (or null-valued)
key is stored pruned; otherwise the two values are merged. -/
def mergeKVs (doc : List (String × J)) : List (String × J) → List (String × J)
  | [] => doc
  | (k, v) :: rest =>
    let doc' :=
      if v.isNull then eraseKey doc k
      else
        match lookupKV doc k with
        | none => setKey doc k (pruneNulls v)
        | some cur =>
          if cur.isNull then setKey doc k (pruneNulls v)
          else setKey doc k (mergeVals cur v)
    mergeKVs doc' rest

end

/-- Outcomes of `jsonpatch.MergePatch`'s input validation:
`errBadJSONDoc` / `errBadJSONPatch`. -/
inductive MergeErr where
  | badDoc
  | badPatch

/-- json-patch `doMergePatch` on two parsed documents (both sides already
known to be syntactically valid JSON).  A `null` document or patch is
rejected; an object patch merges into an object document, replaces (with
nulls pruned) a non-object document; an array patch replaces the document
wholesale (elements pruned); a scalar patch is rejected. -/
def MergePatchV (d p : J) : Except MergeErr J :=
  if d.isNull then .error .badDoc
  else if p.isNull then .error .badPatch
  else
    match d, p with
    | .obj dk, .obj pk => .ok (.obj (mergeKVs dk pk))
    | _, .obj pk => .ok (.obj (pruneKVs pk))
    | _, .arr xs => .ok (.arr (pruneArr xs))
    | _, _ => .error .badPatch

/-- json-patch `MergePatch` on raw bytes: a syntax error in the document
(resp. patch) yields `errBadJSONDoc` (resp. `errBadJSONPatch`), the document
error being checked first; otherwise `doMergePatch` runs on the parses. -/
def mergePatchRaw (d p : Option J) : Except MergeErr J :=
  match d, p with
  | none, _ => .error .badDoc
  | some _, none => .error .badPatch
  | some dv, some pv => MergePatchV dv pv

/-! ## Error model

Error codes are the numeric codes of `types.NewError` from
`github.com/containernetworking/cni/pkg/types` plus the two program-defined
constants of `main.go`. -/

/-- cni `types.ErrIOFailure`. -/
def ErrIOFailure : Int := 5

/-- cni `types.ErrDecodingFailure`. -/
def ErrDecodingFailure : Int := 6

/-- `main.go` constant `ErrInvalidPatchTemplate = 100`. -/
def ErrInvalidPatchTemplate : Int := 100

/-- `main.go` constant `ErrMergeJSONFailed = 101`. -/
def ErrMergeJSONFailed : Int := 101

/-- A cni `types.Error`: numeric code, message, detail string. -/
structure GError where
  code : Int
  msg : String
  details : String

/-- `err.Error()` of json-patch's `errBadJSONDoc` / `errBadJSONPatch`. -/
def mergeErrStr : MergeErr → String
  | .badDoc => "Invalid JSON Document"
  | .badPatch => "Invalid JSON Patch"

/-! ## ConfigParser: json.Unmarshal into `*PluginConfig` -/

/-- The struct `PluginConfig` of `main.go` (current revision).  `stdin` holds
the original envelope bytes (here: their parse) and `downstreamConfig` the
bytes later sent to the delegated plugin. -/
structure PluginConfig where
  config : Option J := none
  patch : String := ""
  plugin : String := ""
  skip : List String := []
  stdin : J := .null
  downstreamConfig : J := .null

/-- Decoding a JSON array into Go `[]string`: every element must be a string
(a JSON `null` element leaves the zero value `""`). -/
def decodeSkipElems : List J → Option (List String)
  | [] => some []
  | .str s :: rest => (decodeSkipElems rest).map (s :: ·)
  | .null :: rest => (decodeSkipElems rest).map ("" :: ·)
  | _ => none

/-- ASCII lower-casing of a field name (the computable core of Go's
case-insensitive JSON field matching; Go uses a Unicode case fold, which
agrees on the ASCII field names involved here). -/
def asciiLower (s : String) : String :=
  ⟨s.data.map Char.toLower⟩

/-- One step of `encoding/json` object decoding into the struct: field names
match case-insensitively, unknown keys are ignored, a JSON `null` resets
pointer/slice fields and leaves string fields untouched, and a wrongly-typed
value for a known field is a decoding error. -/
def applyField (c : PluginConfig) (k : String) (v : J) : Option PluginConfig :=
  if asciiLower k == "config" then
    some { c with config := if v.isNull then none else some v }
  else if asciiLower k == "patch" then
    match v with
    | .str s => some { c with patch := s }
    | .null => some c
    | _ => none
  else if asciiLower k == "plugin" then
    match v with
    | .str s => some { c with plugin := s }
    | .null => some c
    | _ => none
  else if asciiLower k == "skip" then
    match v with
    | .arr xs => (decodeSkipElems xs).map (fun l => { c with skip := l })
    | .null => some { c with skip := [] }
    | _ => none
  else some c

/-- Decode the members of the envelope object left to right (later duplicate
keys overwrite earlier ones, as in `encoding/json`). -/
def decodeFields (c : PluginConfig) : List (String × J) → Option PluginConfig
  | [] => some c
  | (k, v) :: rest =>
    match applyField c k v with
    | none => none
    | some c' => decodeFields c' rest

/-- `json.Unmarshal(stdin, conf)` on an already syntactically valid document:
the top level must be an object (or `null`, which leaves the zero struct);
any other shape is an `UnmarshalTypeError`.  The original document is kept in
the `stdin` field, as in `parseConf`'s `&PluginConfig{stdin: stdin}`. -/
def decodeConf (stdinDoc : J) : Option PluginConfig :=
  match stdinDoc with
  | .null => some { stdin := stdinDoc }
  | .obj kvs => decodeFields { stdin := stdinDoc } kvs
  | _ => none

/-! ## TemplateEngine (external collaborator, opaque) -/

/-- The rendered bytes of the patch template, as far as the program inspects
them: `emptyB` is zero-length output (`len(patch) == 0`), `val j` is
nonempty output parsing as `j`, `invalid` is nonempty output that is not
valid JSON. -/
inductive PatchBytes where
  | emptyB
  | val (j : J)
  | invalid

/-- Result of `template.Parse` + `tmpl.Execute` on the patch template against
the generic view of stdin. -/
inductive RenderResult where
  | parseErr (detail : String)
  | execErr (detail : String)
  | ok (out : PatchBytes)

/-- The opaque template engine (spec treats golang `text/template` + sprig as
a black box): template text and generic data view in, rendered bytes or an
error out. -/
abbrev Renderer := String → J → RenderResult

/-- The JSON parse of the rendered patch bytes, as performed inside
`jsonpatch.MergePatch` (zero-length bytes are not valid JSON). -/
def patchParse : PatchBytes → Option J
  | .emptyB => none
  | .val j => some j
  | .invalid => none

/-! ## PatchComposer -/

/-- `true` when interpolating the string into a JSON string literal yields
exactly its JSON encoding: no double quote, no backslash, no control
character. -/
def jsonStringSafe (s : String) : Bool :=
  s.toList.all (fun c => c != '"' && c != '\\' && decide (0x20 <= c.toNat))

/-- The stage-1 cleanup patch: `fmt.Sprintf` of
`{"type": "%s", "plugin": null, "config": null, "patch": null}` followed by
the JSON parse inside `MergePatch`.  Note that the source does NOT include
`"skip": null` in this string.  When the plugin name contains a double
quote, a backslash or a control character the interpolated bytes are no
longer the JSON encoding of the intended object; that branch is modelled as
a parse failure and no theorem below relies on it. -/
def cleanupPatch (plugin : String) : Option J :=
  if jsonStringSafe plugin then
    some (.obj [("type", .str plugin), ("plugin", .null),
                ("config", .null), ("patch", .null)])
  else none

/-- `generateDownstream` of `main.go`: render the patch template, then the
three merge-patch stages in order — cleanup on the original stdin, rendered
patch onto config-or-`{}` (an empty rendering is first replaced by the
literal `{}`), and the downstream result onto the cleaned stdin.  The
stage-1 and stage-2 results are marshalled JSON, hence the final stage needs
no reparse. -/
def generateDownstream (render : Renderer) (conf : PluginConfig) :
    Except GError J :=
  match render conf.patch conf.stdin with
  | .parseErr d =>
    .error ⟨ErrDecodingFailure, "failed to parse JSON merge patch template", d⟩
  | .execErr d =>
    .error ⟨ErrInvalidPatchTemplate,
            "failed to execute template for JSON merge patch", d⟩
  | .ok rendered =>
    match mergePatchRaw (some conf.stdin) (cleanupPatch conf.plugin) with
    | .error e =>
      .error ⟨ErrMergeJSONFailed,
              "failed to clean up undelegated config items", mergeErrStr e⟩
    | .ok cleaned =>
      let downstreamConf : J := conf.config.getD (.obj [])
      let patch : PatchBytes :=
        match rendered with
        | .emptyB => .val (.obj [])
        | p => p
      match mergePatchRaw (some downstreamConf) (patchParse patch) with
      | .error e =>
        .error ⟨ErrMergeJSONFailed,
                "failed to merge patch with downstream config", mergeErrStr e⟩
      | .ok downstream =>
        match MergePatchV cleaned downstream with
        | .error e =>
          .error ⟨ErrMergeJSONFailed,
                  "failed to merge downstream config with original",
                  mergeErrStr e⟩
        | .ok finalConfig => .ok finalConfig

/-! ## SkipGate and parseConf -/

/-- The two environment variables the program reads, passed explicitly
(spec §9) instead of `os.Getenv`. -/
structure Env where
  cniCommand : String
  cniPath : String

/-- Result of `parseConf`: the skip fast path prints the original stdin
bytes and exits 0; otherwise the config with `downstreamConfig` filled in,
or a `types.Error`. -/
inductive ParseOutcome where
  | skipExit (echoed : J)
  | done (conf : PluginConfig)
  | fail (e : GError)

/-- `parseConf` of `main.go`: unmarshal stdin into the config (a syntax
error and a wrongly-shaped field both yield the `ErrDecodingFailure`
"failed to parse JSON config" error), then — before any template work — the
skip gate: if `CNI_COMMAND` is in `Skip`, echo stdin and exit 0; otherwise
run `generateDownstream`. -/
def parseConf (env : Env) (render : Renderer) (stdinBytes : Option J) :
    ParseOutcome :=
  match stdinBytes with
  | none =>
    .fail ⟨ErrDecodingFailure, "failed to parse JSON config", "json syntax error"⟩
  | some doc =>
    match decodeConf doc with
    | none =>
      .fail ⟨ErrDecodingFailure, "failed to parse JSON config", "json type error"⟩
    | some conf =>
      if conf.skip.contains env.cniCommand then .skipExit doc
      else
        match generateDownstream render conf with
        | .error e => .fail e
        | .ok d => .done { conf with downstreamConfig := d }

/-! ## PluginResolver -/

/-- The filesystem as `getPluginPath` observes it: for a full path, `none`
when `os.Open` or `f.Stat` fails, `some mode` (the permission bits) when
both succeed. -/
abbrev FileSys := String → Option Nat

/-- Go `strings.Split(s, ":")` on the character list: splitting on every
separator occurrence, with no group dropped (so `"a"` gives `["a"]` and
`":"` gives `["", ""]`). -/
def splitChar (sep : Char) : List Char → List (List Char)
  | [] => [[]]
  | c :: rest =>
    if c == sep then [] :: splitChar sep rest
    else
      match splitChar sep rest with
      | [] => [[c]]
      | g :: gs => (c :: g) :: gs

/-- The candidate directory list of `getPluginPath`: the colon-split value
of `CNI_PATH`, or the single default `/opt/cni/bin` when the variable is
unset or empty. -/
def cniDirs (cniPathVar : String) : List String :=
  if cniPathVar != "" then (splitChar ':' cniPathVar.data).map (⟨·⟩)
  else ["/opt/cni/bin"]

/-- The loop-body test of `getPluginPath`: the file opened and statted, and
`s.Mode()&0111 != 0` — some execute bit (owner, group or other) set. -/
def isExecMode (m : Option Nat) : Bool :=
  match m with
  | some mode => mode &&& 0o111 != 0
  | none => false

/-- The search loop of `getPluginPath`, in list order; the full path is
`filepath.Join(p, plugin)` (modelled as `p ++ "/" ++ plugin`; `Join` also
normalizes the result, which none of the claims depends on). -/
def findPlugin (fs : FileSys) (plugin : String) : List String → Option String
  | [] => none
  | p :: rest =>
    if isExecMode (fs (p ++ "/" ++ plugin)) then some (p ++ "/" ++ plugin)
    else findPlugin fs plugin rest

/-- The elements joined by single spaces. -/
def joinSpace : List String → String
  | [] => ""
  | [x] => x
  | x :: rest => x ++ " " ++ joinSpace rest

/-- Go `fmt.Sprintf("%v", slice)` for a string slice. -/
def goSliceFmt (xs : List String) : String :=
  "[" ++ joinSpace xs ++ "]"

/-- `getPluginPath` of `main.go` (current revision): first executable match
on the search path, else a `types.Error` whose code is — verbatim in the
source — the constant `ErrMergeJSONFailed`, whose message names the plugin
and whose details list every directory checked. -/
def getPluginPath (env : Env) (fs : FileSys) (plugin : String) :
    Except GError String :=
  match findPlugin fs plugin (cniDirs env.cniPath) with
  | some fullPath => .ok fullPath
  | none =>
    .error ⟨ErrMergeJSONFailed,
            "cni executable not found in CNI_PATH: " ++ plugin,
            "checked: " ++ goSliceFmt (cniDirs env.cniPath)⟩

/-! ## Delegator -/

/-- The outcome of `cmd.Run()` on the spawned downstream plugin:
`ranOk`/`ranExit` — the subprocess ran to completion (exit status 0 /
nonzero, i.e. `Run` returned nil / an `*exec.ExitError`) having written the
given streams; `spawnFailed` — `Run` returned some other error (executable
missing, permission denied, `exec()` failure) and nothing was captured. -/
inductive RunOutcome where
  | ranOk (stdout stderr : String)
  | ranExit (code : Int) (stdout stderr : String)
  | spawnFailed

/-- The OS process-spawning facility, abstracted: resolved path and stdin
bytes in, `cmd.Run()` outcome out. -/
abbrev Runner := String → J → RunOutcome

/-- `delegate` of `main.go` (current revision): run the plugin with the
given stdin, capturing both streams; the returned exit code is the
`*exec.ExitError` code when the subprocess exited nonzero, and is left at
its zero value `0` both on success and — the `ok` type assertion failing —
on any other `cmd.Run` error (spawn failure). -/
def delegate (runner : Runner) (pluginPath : String) (stdin : J) :
    String × String × Int :=
  match runner pluginPath stdin with
  | .ranOk out err => (out, err, 0)
  | .ranExit code out err => (out, err, code)
  | .spawnFailed => ("", "", 0)

/-! ## main -/

/-- What the whole process does, observably: `errorExit` — `handleError`
printed the `types.Error` on stderr and exited with its code; `skipEcho` —
the original stdin bytes were printed on stdout and the process exited 0;
`delegated` — the captured subprocess streams were replayed onto
stdout/stderr and the process exited with the given code. -/
inductive MainResult where
  | errorExit (e : GError)
  | skipEcho (echoed : J)
  | delegated (stdout stderr : String) (exitcode : Int)

/-- The process exit code of each `MainResult`. -/
def MainResult.exitCode : MainResult → Int
  | .errorExit e => e.code
  | .skipEcho _ => 0
  | .delegated _ _ c => c

/-- `main` of `main.go` (current revision), after the `--version` flag
branch (CLI flag parsing is outside the spec's scope) and the stdin read:
`parseConf`, then `getPluginPath`, then `delegate`, replaying the captured
streams and exiting with the subprocess code. -/
def mainRun (env : Env) (render : Renderer) (fs : FileSys) (runner : Runner)
    (stdinBytes : Option J) : MainResult :=
  match parseConf env render stdinBytes with
  | .fail e => .errorExit e
  | .skipExit doc => .skipEcho doc
  | .done conf =>
    match getPluginPath env fs conf.plugin with
    | .error e => .errorExit e
    | .ok path =>
      match delegate runner path conf.downstreamConfig with
      | (out, errS, code) => .delegated out errS code

/-! ## Helper lemmas on the merge machinery -/

/-- A non-container, non-null JSON value: string, number or boolean. -/
def J.isScalar : J → Bool
  | .num _ => true
  | .str _ => true
  | .bool _ => true
  | _ => false

theorem pruneNulls_scalar {v : J} (hv : v.isScalar = true) : pruneNulls v = v := by
  cases v <;> simp [J.isScalar] at hv ⊢ <;> rfl

theorem mergeVals_scalar {cur v : J} (hv : v.isScalar = true) :
    mergeVals cur v = v := by
  cases cur <;> cases v <;> simp [J.isScalar] at hv <;> simp [mergeVals, pruneNulls]

theorem isNull_false_of_isScalar {v : J} (hv : v.isScalar = true) :
    v.isNull = false := by
  cases v <;> simp_all [J.isScalar, J.isNull]


theorem lookupKV_cons {kv : String × J} {rest : List (String × J)} {k : String} :
    lookupKV (kv :: rest) k = if kv.1 = k then some kv.2 else lookupKV rest k := by
  by_cases h : kv.1 = k
  · simp [lookupKV, List.find?_cons_of_pos, h]
  · simp [lookupKV, List.find?_cons_of_neg, h]

theorem eraseKey_cons {kv : String × J} {rest : List (String × J)} {k : String} :
    eraseKey (kv :: rest) k =
      if kv.1 = k then eraseKey rest k else kv :: eraseKey rest k := by
  by_cases h : kv.1 = k <;> simp [eraseKey, List.filter_cons, h]

theorem setKey_cons {kv : String × J} {rest : List (String × J)} {k : String}
    {v : J} :
    setKey (kv :: rest) k v =
      if kv.1 = k then (k, v) :: rest else kv :: setKey rest k v := by
  by_cases h : kv.1 = k <;> simp [setKey, h]

theorem lookupKV_eraseKey_ne {d : List (String × J)} {k k' : String}
    (h : k ≠ k') : lookupKV (eraseKey d k') k = lookupKV d k := by
  induction d with
  | nil => rfl
  | cons kv rest ih =>
    by_cases hk : kv.1 = k'
    · rw [eraseKey_cons, if_pos hk, ih, lookupKV_cons,
        if_neg (by rw [hk]; exact Ne.symm h)]
    · rw [eraseKey_cons, if_neg hk, lookupKV_cons, lookupKV_cons, ih]

theorem lookupKV_eraseKey_self {d : List (String × J)} {k : String} :
    lookupKV (eraseKey d k) k = none := by
  induction d with
  | nil => rfl
  | cons kv rest ih =>
    by_cases hk : kv.1 = k
    · rw [eraseKey_cons, if_pos hk, ih]
    · rw [eraseKey_cons, if_neg hk, lookupKV_cons, if_neg hk, ih]

theorem lookupKV_setKey_self {d : List (String × J)} {k : String} {v : J} :
    lookupKV (setKey d k v) k = some v := by
  induction d with
  | nil => simp [setKey, lookupKV_cons]
  | cons kv rest ih =>
    by_cases hk : kv.1 = k
    · rw [setKey_cons, if_pos hk, lookupKV_cons, if_pos rfl]
    · rw [setKey_cons, if_neg hk, lookupKV_cons, if_neg hk, ih]

theorem lookupKV_setKey_ne {d : List (String × J)} {k k' : String} {v : J}
    (h : k ≠ k') : lookupKV (setKey d k' v) k = lookupKV d k := by
  induction d with
  | nil => simp [setKey, lookupKV_cons, Ne.symm h]
  | cons kv rest ih =>
    by_cases hk : kv.1 = k'
    · rw [setKey_cons, if_pos hk, lookupKV_cons, lookupKV_cons,
        if_neg (by exact Ne.symm h), if_neg (by rw [hk]; exact Ne.symm h)]
    · rw [setKey_cons, if_neg hk, lookupKV_cons, lookupKV_cons, ih]

theorem mergeKVs_nil {d : List (String × J)} : mergeKVs d [] = d := rfl

theorem mergeKVs_cons {d : List (String × J)} {k : String} {v : J}
    {rest : List (String × J)} :
    mergeKVs d ((k, v) :: rest) =
      mergeKVs
        (if v.isNull then eraseKey d k
         else
           match lookupKV d k with
           | none => setKey d k (pruneNulls v)
           | some cur =>
             if cur.isNull then setKey d k (pruneNulls v)
             else setKey d k (mergeVals cur v)) rest := rfl

/-- A patch that never mentions `k` leaves the document's binding of `k`
alone. -/
theorem lookupKV_mergeKVs_not_mem {p : List (String × J)}
    {d : List (String × J)} {k : String} (h : k ∉ p.map Prod.fst) :
    lookupKV (mergeKVs d p) k = lookupKV d k := by
  induction p generalizing d with
  | nil => rfl
  | cons kv rest ih =>
    obtain ⟨k₁, v₁⟩ := kv
    simp only [List.map_cons, List.mem_cons, not_or] at h
    obtain ⟨hne, hrest⟩ := h
    rw [mergeKVs_cons, ih hrest]
    split
    · exact lookupKV_eraseKey_ne hne
    · split
      · exact lookupKV_setKey_ne hne
      · split <;> exact lookupKV_setKey_ne hne

/-- A scalar binding of the patch wins: if the patch maps `k` to a scalar
`v` (its keys duplicate-free, as for any parsed Go map), then after
`mergeDocs` the document maps `k` to exactly `v`, whatever it held before. -/
theorem lookupKV_mergeKVs_scalar {p : List (String × J)}
    {d : List (String × J)} {k : String} {v : J}
    (hnd : (p.map Prod.fst).Nodup) (hk : lookupKV p k = some v)
    (hv : v.isScalar = true) :
    lookupKV (mergeKVs d p) k = some v := by
  induction p generalizing d with
  | nil => simp [lookupKV] at hk
  | cons kv rest ih =>
    obtain ⟨k₁, v₁⟩ := kv
    rw [lookupKV_cons] at hk
    rw [List.map_cons, List.nodup_cons] at hnd
    obtain ⟨hnotin, hnd'⟩ := hnd
    by_cases he : k₁ = k
    · subst he
      rw [if_pos rfl] at hk
      obtain rfl : v₁ = v := by injection hk
      rw [mergeKVs_cons, lookupKV_mergeKVs_not_mem hnotin,
        if_neg (by simp [isNull_false_of_isScalar hv])]
      rcases hcase : lookupKV d k₁ with _ | cur <;> simp only [hcase]
      · rw [pruneNulls_scalar hv]; exact lookupKV_setKey_self
      · by_cases hc : cur.isNull = true
        · rw [if_pos hc, pruneNulls_scalar hv]; exact lookupKV_setKey_self
        · rw [if_neg hc, mergeVals_scalar hv]; exact lookupKV_setKey_self
    · rw [if_neg he] at hk
      rw [mergeKVs_cons]
      exact ih hnd' hk

/-! ## Invariants of the config decoder -/

theorem applyField_inv {c c' : PluginConfig} {k : String} {v : J}
    (h : applyField c k v = some c') :
    c'.stdin = c.stdin ∧
    (c'.config = c.config ∨ c'.config = none ∨
      ∃ w, w.isNull = false ∧ c'.config = some w) := by
  unfold applyField at h
  by_cases h1 : (asciiLower k == "config") = true
  · rw [if_pos h1] at h
    injection h with h
    subst h
    refine ⟨rfl, ?_⟩
    by_cases hn : v.isNull = true
    · exact Or.inr (Or.inl (by simp [hn]))
    · exact Or.inr (Or.inr ⟨v, by simpa using hn, by simp [hn]⟩)
  · rw [if_neg h1] at h
    by_cases h2 : (asciiLower k == "patch") = true
    · rw [if_pos h2] at h
      cases v <;> first
        | (injection h with h; subst h; exact ⟨rfl, Or.inl rfl⟩)
        | exact Option.noConfusion h
    · rw [if_neg h2] at h
      by_cases h3 : (asciiLower k == "plugin") = true
      · rw [if_pos h3] at h
        cases v <;> first
          | (injection h with h; subst h; exact ⟨rfl, Or.inl rfl⟩)
          | exact Option.noConfusion h
      · rw [if_neg h3] at h
        by_cases h4 : (asciiLower k == "skip") = true
        · rw [if_pos h4] at h
          cases v with
          | arr xs =>
            dsimp only at h
            rcases hd : decodeSkipElems xs with _ | l <;> rw [hd] at h
            · exact Option.noConfusion h
            · injection h with h; subst h; exact ⟨rfl, Or.inl rfl⟩
          | null => injection h with h; subst h; exact ⟨rfl, Or.inl rfl⟩
          | _ => exact Option.noConfusion h
        · rw [if_neg h4] at h
          injection h with h; subst h; exact ⟨rfl, Or.inl rfl⟩

theorem decodeFields_inv {l : List (String × J)} {c c' : PluginConfig}
    (h : decodeFields c l = some c') :
    c'.stdin = c.stdin ∧
    ((c.config = none ∨ ∃ w, w.isNull = false ∧ c.config = some w) →
     (c'.config = none ∨ ∃ w, w.isNull = false ∧ c'.config = some w)) := by
  induction l generalizing c with
  | nil => injection h with h; subst h; exact ⟨rfl, id⟩
  | cons kv rest ih =>
    obtain ⟨k, v⟩ := kv
    dsimp only [decodeFields] at h
    rcases ha : applyField c k v with _ | c₁ <;> rw [ha] at h
    · exact Option.noConfusion h
    · obtain ⟨hs, hc⟩ := applyField_inv ha
      obtain ⟨hs', hc'⟩ := ih h
      refine ⟨hs'.trans hs, fun hq => hc' ?_⟩
      rcases hc with heq | hn | ⟨w, hw, hweq⟩
      · rw [heq]; exact hq
      · exact Or.inl hn
      · exact Or.inr ⟨w, hw, hweq⟩

/-- A successfully decoded config keeps the original stdin document, and its
`config` field (a raw message taken from a parsed document, `null` mapped to
a nil pointer) is never the JSON literal `null`. -/
theorem decodeConf_inv {doc : J} {conf : PluginConfig}
    (h : decodeConf doc = some conf) :
    conf.stdin = doc ∧
    (conf.config = none ∨ ∃ w, w.isNull = false ∧ conf.config = some w) := by
  cases doc with
  | null => injection h with h; subst h; exact ⟨rfl, Or.inl rfl⟩
  | obj kvs =>
    obtain ⟨hs, hc⟩ := decodeFields_inv (h := h)
    exact ⟨hs, hc (Or.inl rfl)⟩
  | _ => exact Option.noConfusion h

/-! ## Claims -/

/-- C3: for every envelope whose `skip` list contains the currently
executing command (read from the process environment), the program writes
the original envelope bytes unmodified to standard output and exits 0 —
for every template engine behavior, filesystem and subprocess behavior, so
no template parsing/execution, no merge stage and no delegation can
influence the result, regardless of whether `patch` is a valid template. -/
theorem c3_skip_fast_path (env : Env) (render : Renderer) (fs : FileSys)
    (runner : Runner) (doc : J) (conf : PluginConfig)
    (hdec : decodeConf doc = some conf)
    (hskip : conf.skip.contains env.cniCommand = true) :
    mainRun env render fs runner (some doc) = .skipEcho doc ∧
    (mainRun env render fs runner (some doc)).exitCode = 0 := by
  have hp : parseConf env render (some doc) = .skipExit doc := by
    unfold parseConf
    dsimp only
    rw [hdec]
    dsimp only
    rw [if_pos hskip]
  have h : mainRun env render fs runner (some doc) = .skipEcho doc := by
    unfold mainRun
    rw [hp]
  exact ⟨h, by rw [h]; rfl⟩

/-- Witness for C3: a concrete envelope with `CNI_COMMAND` in its skip
list, an unparseable patch template (the engine reports a parse error), no
executable anywhere, and a failing process runner — the input is still
echoed verbatim with exit code 0. -/
theorem c3_skip_fast_path_witness :
    mainRun ⟨"VERSION", ""⟩ (fun _ _ => .parseErr "template syntax error")
      (fun _ => none) (fun _ _ => .spawnFailed)
      (some (.obj [("type", .str "gator"), ("plugin", .str "debug"),
        ("patch", .str "\x7b\x7b"), ("skip", .arr [.str "VERSION"])])) =
      .skipEcho (.obj [("type", .str "gator"), ("plugin", .str "debug"),
        ("patch", .str "\x7b\x7b"), ("skip", .arr [.str "VERSION"])]) ∧
    (mainRun ⟨"VERSION", ""⟩ (fun _ _ => .parseErr "template syntax error")
      (fun _ => none) (fun _ _ => .spawnFailed)
      (some (.obj [("type", .str "gator"), ("plugin", .str "debug"),
        ("patch", .str "\x7b\x7b"), ("skip", .arr [.str "VERSION"])]))).exitCode = 0 :=
  c3_skip_fast_path ⟨"VERSION", ""⟩ (fun _ _ => .parseErr "template syntax error")
    (fun _ => none) (fun _ _ => .spawnFailed) _ _ rfl rfl

/-- C10: the skip fast path engages only after the envelope decodes: for
input bytes that are not valid JSON, or that have a wrongly-shaped known
field, the program reports the `ErrDecodingFailure` error (it does not echo
the input), whatever the current command and would-be skip list. -/
theorem c10_decode_before_skip (env : Env) (render : Renderer) (fs : FileSys)
    (runner : Runner) (stdinBytes : Option J)
    (hbad : stdinBytes = none ∨
      ∃ doc, stdinBytes = some doc ∧ decodeConf doc = none) :
    ∃ e, mainRun env render fs runner stdinBytes = .errorExit e ∧
      e.code = ErrDecodingFailure ∧ e.msg = "failed to parse JSON config" := by
  rcases hbad with rfl | ⟨doc, rfl, hdec⟩
  · exact ⟨_, rfl, rfl, rfl⟩
  · have h : mainRun env render fs runner (some doc) =
        .errorExit ⟨ErrDecodingFailure, "failed to parse JSON config",
          "json type error"⟩ := by
      unfold mainRun parseConf
      dsimp only
      rw [hdec]
    exact ⟨_, h, rfl, rfl⟩

/-- Witness for C10: the envelope `{"skip": "DEL"}` has a wrongly-shaped
`skip` field (a string, not an array); with `CNI_COMMAND=DEL` — which a
well-formed skip list would have matched — the program still reports the
decoding failure instead of echoing. -/
theorem c10_decode_before_skip_witness :
    ∃ e, mainRun ⟨"DEL", ""⟩ (fun _ _ => .ok .emptyB) (fun _ => none)
        (fun _ _ => .spawnFailed) (some (.obj [("skip", .str "DEL")])) =
        .errorExit e ∧
      e.code = ErrDecodingFailure ∧ e.msg = "failed to parse JSON config" :=
  c10_decode_before_skip ⟨"DEL", ""⟩ (fun _ _ => .ok .emptyB) (fun _ => none)
    (fun _ _ => .spawnFailed) _ (Or.inr ⟨_, rfl, rfl⟩)

/-- C1 (bug evaluation): the cleanup patch the source builds is
`{"type": "<plugin>", "plugin": null, "config": null, "patch": null}` —
without `"skip": null` — so for the envelope
`{"type":"gator","plugin":"debug","config":{"cfgkey":true},"patch":"",
"skip":["VERSION"]}` on the delegate path (CNI_COMMAND=ADD), `plugin`,
`config` and `patch` are stripped from the FinalConfig bytes but the
system's own `skip` field leaks through to the downstream plugin. -/
theorem c1_skip_leaks_downstream :
    cleanupPatch "debug" =
      some (.obj [("type", .str "debug"), ("plugin", .null),
                  ("config", .null), ("patch", .null)]) ∧
    ∃ c, parseConf ⟨"ADD", ""⟩ (fun _ _ => .ok .emptyB)
        (some (.obj [("type", .str "gator"), ("plugin", .str "debug"),
          ("config", .obj [("cfgkey", .bool true)]), ("patch", .str ""),
          ("skip", .arr [.str "VERSION"])])) = .done c ∧
      c.downstreamConfig.lookup "plugin" = none ∧
      c.downstreamConfig.lookup "config" = none ∧
      c.downstreamConfig.lookup "patch" = none ∧
      c.downstreamConfig.lookup "type" = some (.str "debug") ∧
      c.downstreamConfig.lookup "skip" = some (.arr [.str "VERSION"]) :=
  ⟨rfl, _, rfl, rfl, rfl, rfl, rfl, rfl⟩

/-- C5 (bug evaluation): `delegate` propagates the `*exec.ExitError` code
of a subprocess that ran and terminated, but when `cmd.Run` fails for any
other reason (spawn failure) the `ok` type assertion fails and the zero
value `0` is returned — so the whole program prints nothing and exits 0
instead of reporting a fatal error. -/
theorem c5_spawn_failure_exits_zero :
    (∀ (code : Int) (out err path : String) (stdin : J),
      delegate (fun _ _ => .ranExit code out err) path stdin = (out, err, code)) ∧
    (∀ (path : String) (stdin : J),
      delegate (fun _ _ => .spawnFailed) path stdin = ("", "", 0)) ∧
    mainRun ⟨"ADD", "/cni"⟩ (fun _ _ => .ok .emptyB)
      (fun p => if p == "/cni/debug" then some 0o755 else none)
      (fun _ _ => .spawnFailed)
      (some (.obj [("plugin", .str "debug")])) = .delegated "" "" 0 ∧
    mainRun ⟨"ADD", "/cni"⟩ (fun _ _ => .ok .emptyB)
      (fun p => if p == "/cni/debug" then some 0o755 else none)
      (fun _ _ => .ranExit 7 "result" "warning")
      (some (.obj [("plugin", .str "debug")])) = .delegated "result" "warning" 7 :=
  ⟨fun _ _ _ _ _ => rfl, fun _ _ => rfl, rfl, rfl⟩

/-- The search loop returns the first executable match, left to right. -/
theorem findPlugin_first_match (fs : FileSys) (plugin : String)
    (pre : List String) (d : String) (post : List String)
    (hpre : ∀ p ∈ pre, isExecMode (fs (p ++ "/" ++ plugin)) = false)
    (hd : isExecMode (fs (d ++ "/" ++ plugin)) = true) :
    findPlugin fs plugin (pre ++ d :: post) = some (d ++ "/" ++ plugin) := by
  induction pre with
  | nil => simp [findPlugin, hd]
  | cons p rest ih =>
    have hp := hpre p (by simp)
    simp only [List.cons_append, findPlugin, hp, Bool.false_eq_true, if_false]
    exact ih (fun q hq => hpre q (by simp [hq]))

/-- C6: `getPluginPath` scans the colon-split `CNI_PATH` (the single
default directory `/opt/cni/bin` when the variable is empty or unset) in
left-to-right order and returns `<directory>/<plugin>` for the first
directory whose candidate file has an owner, group or other execute bit
set, however the later directories look. -/
theorem c6_resolver_first_match (env : Env) (fs : FileSys) (plugin : String)
    (pre : List String) (d : String) (post : List String)
    (hdirs : cniDirs env.cniPath = pre ++ d :: post)
    (hpre : ∀ p ∈ pre, isExecMode (fs (p ++ "/" ++ plugin)) = false)
    (hd : isExecMode (fs (d ++ "/" ++ plugin)) = true) :
    cniDirs "" = ["/opt/cni/bin"] ∧
    getPluginPath env fs plugin = .ok (d ++ "/" ++ plugin) := by
  refine ⟨rfl, ?_⟩
  unfold getPluginPath
  rw [hdirs, findPlugin_first_match fs plugin pre d post hpre hd]

/-- Witness for C6: `CNI_PATH=/first:/second`, both directories holding an
executable `gator` — the file under `/first`, the first-listed directory,
is chosen. -/
theorem c6_resolver_first_match_witness :
    cniDirs "" = ["/opt/cni/bin"] ∧
    getPluginPath ⟨"ADD", "/first:/second"⟩
      (fun p => if p == "/first/gator" || p == "/second/gator"
        then some 0o755 else none) "gator" =
      .ok ("/first" ++ "/" ++ "gator") :=
  c6_resolver_first_match ⟨"ADD", "/first:/second"⟩
    (fun p => if p == "/first/gator" || p == "/second/gator"
      then some 0o755 else none) "gator" [] "/first" ["/second"]
    rfl (by intro p hp; cases hp) rfl

/-- C7 (bug evaluation): when no directory holds an executable match, the
returned `types.Error` names the plugin in its message and enumerates every
directory checked in its details, and its nonzero code is — verbatim in the
source — `ErrMergeJSONFailed` (101), the very code the three merge stages
report, so the exit code is not distinct per failure kind: a merge failure
produces the same code 101. -/
theorem c7_not_found_error_shape :
    getPluginPath ⟨"ADD", "/dir1:/dir2"⟩ (fun _ => none) "myplugin" =
      .error ⟨ErrMergeJSONFailed,
        "cni executable not found in CNI_PATH: myplugin",
        "checked: [/dir1 /dir2]"⟩ ∧
    ErrMergeJSONFailed ≠ 0 ∧
    (∃ e, generateDownstream (fun _ _ => .ok .invalid)
        { plugin := "x", stdin := .obj [] } = .error e ∧
      e.code = ErrMergeJSONFailed) :=
  ⟨rfl, by decide, _, rfl, rfl⟩

/-- C9: a template whose rendering is the empty byte sequence is
indistinguishable, for the whole downstream generation, from one whose
rendering is the literal empty object `{}`: the zero-length output is
normalized to `{}` before the downstream-build merge. -/
theorem c9_empty_render_normalized (conf : PluginConfig) (r1 r2 : Renderer)
    (h1 : r1 conf.patch conf.stdin = .ok .emptyB)
    (h2 : r2 conf.patch conf.stdin = .ok (.val (.obj []))) :
    generateDownstream r1 conf = generateDownstream r2 conf := by
  unfold generateDownstream
  rw [h1, h2]

/-- Witness for C9: a concrete envelope processed once with an
empty-rendering engine and once with a `{}`-rendering engine gives
identical results. -/
theorem c9_empty_render_normalized_witness :
    generateDownstream (fun _ _ => .ok .emptyB)
      { plugin := "debug", stdin := .obj [("plugin", .str "debug")] } =
    generateDownstream (fun _ _ => .ok (.val (.obj [])))
      { plugin := "debug", stdin := .obj [("plugin", .str "debug")] } :=
  c9_empty_render_normalized
    { plugin := "debug", stdin := .obj [("plugin", .str "debug")] }
    (fun _ _ => .ok .emptyB) (fun _ _ => .ok (.val (.obj []))) rfl rfl

/-- C2 (counterexample): the envelope
`{"type":"gator","plugin":"p","config":{"a":2},"patch":"\x7b\"a\": null\x7d","a":1}`
(the literal patch template renders to itself).  The key `a` is present in
the envelope, in `config` and in the rendered patch; yet the downstream
build deletes `a` (RFC7396 null deletes), so the final merge leaves the
ORIGINAL envelope value `1` at `a` in FinalConfig — the claim that the
downstream value, not the envelope value, appears for such a key is false. -/
theorem c2_counterexample :
    MergePatchV (.obj [("a", .num 2)]) (.obj [("a", .null)]) = .ok (.obj []) ∧
    ∃ c, parseConf ⟨"ADD", ""⟩
        (fun t _ => if t == "\x7b\"a\": null\x7d"
          then .ok (.val (.obj [("a", .null)])) else .ok .invalid)
        (some (.obj [("type", .str "gator"), ("plugin", .str "p"),
          ("config", .obj [("a", .num 2)]), ("patch", .str "\x7b\"a\": null\x7d"),
          ("a", .num 1)])) = .done c ∧
      (J.obj [("type", .str "gator"), ("plugin", .str "p"),
        ("config", .obj [("a", .num 2)]), ("patch", .str "\x7b\"a\": null\x7d"),
        ("a", .num 1)]).lookup "a" = some (.num 1) ∧
      c.downstreamConfig.lookup "a" = some (.num 1) :=
  ⟨rfl, _, rfl, rfl, rfl⟩

/-- C2 (amended): the three merge stages run in the fixed order cleanup,
downstream build, final merge, and for every top-level key that survives
into the stage-2 downstream object with a non-null, non-container value
(string, number or boolean), that downstream value — not the original
envelope value — appears in FinalConfig.  (For a null patch value the key is
deleted from the downstream object and the envelope value survives, see the
counterexample; for object values the two sides merge recursively.) -/
theorem c2_downstream_scalar_wins (render : Renderer) (conf : PluginConfig)
    (dk pk : List (String × J)) (out : J) (k : String) (v : J)
    (hrender : render conf.patch conf.stdin = .ok (.val out))
    (hstdin : conf.stdin = .obj dk)
    (hsafe : jsonStringSafe conf.plugin = true)
    (hdown : MergePatchV (conf.config.getD (.obj [])) out = .ok (.obj pk))
    (hnd : (pk.map Prod.fst).Nodup)
    (hk : lookupKV pk k = some v)
    (hv : v.isScalar = true) :
    ∃ f, generateDownstream render conf = .ok f ∧ f.lookup k = some v := by
  have hclean : mergePatchRaw (some conf.stdin) (cleanupPatch conf.plugin) =
      .ok (.obj (mergeKVs dk [("type", .str conf.plugin), ("plugin", .null),
        ("config", .null), ("patch", .null)])) := by
    rw [hstdin]
    unfold cleanupPatch
    rw [if_pos hsafe]
    rfl
  have hrun : generateDownstream render conf =
      .ok (.obj (mergeKVs (mergeKVs dk [("type", .str conf.plugin),
        ("plugin", .null), ("config", .null), ("patch", .null)]) pk)) := by
    unfold generateDownstream
    rw [hrender, hclean]
    dsimp only [patchParse]
    rw [show mergePatchRaw (some (conf.config.getD (.obj []))) (some out) =
      MergePatchV (conf.config.getD (.obj [])) out from rfl, hdown]
    rfl
  refine ⟨_, hrun, ?_⟩
  exact lookupKV_mergeKVs_scalar hnd hk hv

/-- Witness for C2 (amended): envelope value `1` at `a`, config value `2`,
rendered patch value `3` — FinalConfig carries the downstream value `3`. -/
theorem c2_downstream_scalar_wins_witness :
    ∃ f, generateDownstream
        (fun t _ => if t == "\x7b\"a\": 3\x7d"
          then .ok (.val (.obj [("a", .num 3)])) else .ok .invalid)
        { config := some (.obj [("a", .num 2)]), patch := "\x7b\"a\": 3\x7d",
          plugin := "p",
          stdin := .obj [("type", .str "gator"), ("plugin", .str "p"),
            ("config", .obj [("a", .num 2)]), ("patch", .str "\x7b\"a\": 3\x7d"),
            ("a", .num 1)] } = .ok f ∧
      f.lookup "a" = some (.num 3) :=
  c2_downstream_scalar_wins _ _
    [("type", .str "gator"), ("plugin", .str "p"),
      ("config", .obj [("a", .num 2)]), ("patch", .str "\x7b\"a\": 3\x7d"),
      ("a", .num 1)]
    [("a", .num 3)] (.obj [("a", .num 3)]) "a" (.num 3)
    rfl rfl rfl rfl (by simp) rfl rfl

/-- The stage-1 cleanup merge in closed form: set `type` to the plugin name,
then delete `plugin`, `config` and `patch` (in source order). -/
theorem mergeKVs_cleanup_eq (kvs : List (String × J)) (plugin : String) :
    mergeKVs kvs [("type", .str plugin), ("plugin", .null),
      ("config", .null), ("patch", .null)] =
    eraseKey (eraseKey (eraseKey (setKey kvs "type" (.str plugin))
      "plugin") "config") "patch" := by
  rcases hc : lookupKV kvs "type" with _ | cur
  · simp [mergeKVs_cons, mergeKVs_nil, hc, pruneNulls,
      show (J.str plugin).isNull = false from rfl,
      show (J.null).isNull = true from rfl]
  · by_cases hn : cur.isNull = true
    · simp [mergeKVs_cons, mergeKVs_nil, hc, hn, pruneNulls,
        show (J.str plugin).isNull = false from rfl,
        show (J.null).isNull = true from rfl]
    · simp [mergeKVs_cons, mergeKVs_nil, hc, hn,
        mergeVals_scalar (show (J.str plugin).isScalar = true from rfl),
        show (J.str plugin).isNull = false from rfl,
        show (J.null).isNull = true from rfl]

/-- C4 (counterexample): for the valid envelope
`{"type":"gator","plugin":"debug","skip":["GC"]}` with empty patch and no
config, FinalConfig retains the system's own `skip` field, so it does not
equal the envelope with the system's own fields removed and `type`
rewritten (which would be `{"type":"debug"}`). -/
theorem c4_counterexample :
    ∃ c, parseConf ⟨"ADD", ""⟩ (fun _ _ => .ok .emptyB)
        (some (.obj [("type", .str "gator"), ("plugin", .str "debug"),
          ("skip", .arr [.str "GC"])])) = .done c ∧
      c.downstreamConfig.lookup "skip" = some (.arr [.str "GC"]) ∧
      c.downstreamConfig ≠ .obj [("type", .str "debug")] := by
  refine ⟨_, rfl, rfl, fun h => ?_⟩
  exact Option.noConfusion (congrArg (fun j => j.lookup "skip") h)

/-- C4 (amended): for every valid envelope (a JSON object that decodes,
with a quote-free plugin name and `config` absent or an object) whose
`patch` renders empty, the patch stage is a no-op: FinalConfig is exactly
the cleaned envelope — `plugin`, `config` and `patch` removed (`skip`, when
present, is retained: see the counterexample), `type` rewritten to the
plugin name, every other top-level field untouched — merged with `config`,
or the cleaned envelope unchanged when `config` is absent.  In particular
the scenario-A envelope
`{"type":"gator","plugin":"debug","prevResult":{"key":"value"}}` yields the
object with members `type = "debug"` and `prevResult = {"key":"value"}`
(Go marshals map keys sorted, printing it as
`{"prevResult":{"key":"value"},"type":"debug"}`). -/
theorem c4_empty_patch_noop (render : Renderer) (kvs : List (String × J))
    (conf : PluginConfig)
    (hdec : decodeConf (.obj kvs) = some conf)
    (hren : render conf.patch conf.stdin = .ok .emptyB)
    (hsafe : jsonStringSafe conf.plugin = true)
    (hcfg : conf.config = none ∨ ∃ ck, conf.config = some (.obj ck)) :
    (∃ f, MergePatchV (.obj (mergeKVs kvs [("type", .str conf.plugin),
        ("plugin", .null), ("config", .null), ("patch", .null)]))
        (conf.config.getD (.obj [])) = .ok f ∧
      generateDownstream render conf = .ok f) ∧
    lookupKV (mergeKVs kvs [("type", .str conf.plugin), ("plugin", .null),
      ("config", .null), ("patch", .null)]) "plugin" = none ∧
    lookupKV (mergeKVs kvs [("type", .str conf.plugin), ("plugin", .null),
      ("config", .null), ("patch", .null)]) "config" = none ∧
    lookupKV (mergeKVs kvs [("type", .str conf.plugin), ("plugin", .null),
      ("config", .null), ("patch", .null)]) "patch" = none ∧
    lookupKV (mergeKVs kvs [("type", .str conf.plugin), ("plugin", .null),
      ("config", .null), ("patch", .null)]) "type" = some (.str conf.plugin) ∧
    (∀ k, k ≠ "type" → k ≠ "plugin" → k ≠ "config" → k ≠ "patch" →
      lookupKV (mergeKVs kvs [("type", .str conf.plugin), ("plugin", .null),
        ("config", .null), ("patch", .null)]) k = lookupKV kvs k) ∧
    (∃ c, parseConf ⟨"ADD", ""⟩ (fun _ _ => .ok .emptyB)
        (some (.obj [("type", .str "gator"), ("plugin", .str "debug"),
          ("prevResult", .obj [("key", .str "value")])])) = .done c ∧
      c.downstreamConfig = .obj [("type", .str "debug"),
        ("prevResult", .obj [("key", .str "value")])]) := by
  obtain ⟨hstdin, -⟩ := decodeConf_inv hdec
  have hclean : mergePatchRaw (some conf.stdin) (cleanupPatch conf.plugin) =
      .ok (.obj (mergeKVs kvs [("type", .str conf.plugin), ("plugin", .null),
        ("config", .null), ("patch", .null)])) := by
    rw [hstdin]
    unfold cleanupPatch
    rw [if_pos hsafe]
    rfl
  refine ⟨?_, ?_, ?_, ?_, ?_, ?_, ⟨_, rfl, rfl⟩⟩
  · rcases hcfg with hnone | ⟨ck, hsome⟩
    · refine ⟨.obj (mergeKVs kvs [("type", .str conf.plugin),
        ("plugin", .null), ("config", .null), ("patch", .null)]), ?_, ?_⟩
      · rw [hnone]
        rfl
      · unfold generateDownstream
        rw [hren, hclean, hnone]
        rfl
    · refine ⟨.obj (mergeKVs (mergeKVs kvs [("type", .str conf.plugin),
        ("plugin", .null), ("config", .null), ("patch", .null)]) ck), ?_, ?_⟩
      · rw [hsome]
        rfl
      · unfold generateDownstream
        rw [hren, hclean, hsome]
        rfl
  · rw [mergeKVs_cleanup_eq, lookupKV_eraseKey_ne (by decide),
      lookupKV_eraseKey_ne (by decide), lookupKV_eraseKey_self]
  · rw [mergeKVs_cleanup_eq, lookupKV_eraseKey_ne (by decide),
      lookupKV_eraseKey_self]
  · rw [mergeKVs_cleanup_eq, lookupKV_eraseKey_self]
  · rw [mergeKVs_cleanup_eq, lookupKV_eraseKey_ne (by decide),
      lookupKV_eraseKey_ne (by decide), lookupKV_eraseKey_ne (by decide),
      lookupKV_setKey_self]
  · intro k h1 h2 h3 h4
    rw [mergeKVs_cleanup_eq, lookupKV_eraseKey_ne h4, lookupKV_eraseKey_ne h3,
      lookupKV_eraseKey_ne h2, lookupKV_setKey_ne h1]

/-- Witness for C4 (amended): the scenario-A envelope, decoded and run with
an empty-rendering engine — the no-op equation instantiated concretely. -/
theorem c4_empty_patch_noop_witness :
    ∃ f, MergePatchV (.obj (mergeKVs
        [("type", .str "gator"), ("plugin", .str "debug"),
          ("prevResult", .obj [("key", .str "value")])]
        [("type", .str "debug"), ("plugin", .null),
          ("config", .null), ("patch", .null)])) (.obj []) = .ok f ∧
      generateDownstream (fun _ _ => .ok .emptyB)
        { plugin := "debug",
          stdin := .obj [("type", .str "gator"), ("plugin", .str "debug"),
            ("prevResult", .obj [("key", .str "value")])] } = .ok f :=
  (c4_empty_patch_noop (fun _ _ => .ok .emptyB)
    [("type", .str "gator"), ("plugin", .str "debug"),
      ("prevResult", .obj [("key", .str "value")])]
    { plugin := "debug",
      stdin := .obj [("type", .str "gator"), ("plugin", .str "debug"),
        ("prevResult", .obj [("key", .str "value")])] }
    rfl rfl rfl (Or.inl rfl)).1

/-- C8 (counterexample): the rendered patch is never validated before the
merge stages, so `MergeJSONFailed` is reachable: the valid envelope
`{"type":"gator","plugin":"p","patch":"hi"}` decodes and its template
executes fine (rendering the non-JSON bytes `hi`), yet the downstream-build
merge stage fails with the `ErrMergeJSONFailed` error. -/
theorem c8_counterexample :
    ∃ e, parseConf ⟨"ADD", ""⟩
        (fun t _ => if t == "hi" then .ok .invalid else .ok .emptyB)
        (some (.obj [("type", .str "gator"), ("plugin", .str "p"),
          ("patch", .str "hi")])) = .fail e ∧
      e.code = ErrMergeJSONFailed ∧
      e.msg = "failed to merge patch with downstream config" :=
  ⟨_, rfl, rfl, rfl⟩

theorem MergePatchV_obj_patch_ok (d : J) (hd : d.isNull = false)
    (pk : List (String × J)) :
    ∃ rk, MergePatchV d (.obj pk) = .ok (.obj rk) := by
  cases d <;> first
    | exact Bool.noConfusion hd
    | exact ⟨_, rfl⟩

theorem MergePatchV_arr_patch_ok (d : J) (hd : d.isNull = false)
    (xs : List J) :
    MergePatchV d (.arr xs) = .ok (.arr (pruneArr xs)) := by
  cases d <;> first
    | exact Bool.noConfusion hd
    | rfl

theorem MergePatchV_from_obj_ok (ck : List (String × J)) (r : J)
    (hr : (∃ rk, r = .obj rk) ∨ ∃ xs, r = .arr xs) :
    ∃ f, MergePatchV (.obj ck) r = .ok f := by
  rcases hr with ⟨rk, rfl⟩ | ⟨xs, rfl⟩
  · exact ⟨_, rfl⟩
  · exact ⟨_, rfl⟩

/-- C8 (amended): the `MergeJSONFailed` branches are unreachable only under
extra conditions that prior validation does not in fact establish: if the
envelope decodes (hence is a JSON object or `null`), the envelope is an
object, the plugin name needs no JSON string escaping, and the rendered
patch is empty or parses as a JSON object or array, then all three merge
stages succeed. -/
theorem c8_stages_succeed_on_valid_inputs (render : Renderer)
    (kvs : List (String × J)) (conf : PluginConfig) (out : PatchBytes)
    (hdec : decodeConf (.obj kvs) = some conf)
    (hsafe : jsonStringSafe conf.plugin = true)
    (hren : render conf.patch conf.stdin = .ok out)
    (hout : out = .emptyB ∨ (∃ pk, out = .val (.obj pk)) ∨
      ∃ xs, out = .val (.arr xs)) :
    ∃ f, generateDownstream render conf = .ok f := by
  obtain ⟨hstdin, hcfg⟩ := decodeConf_inv hdec
  have hbase : (conf.config.getD (.obj [])).isNull = false := by
    rcases hcfg with hnone | ⟨w, hw, hsome⟩
    · rw [hnone]; rfl
    · rw [hsome]; exact hw
  have hclean : mergePatchRaw (some conf.stdin) (cleanupPatch conf.plugin) =
      .ok (.obj (mergeKVs kvs [("type", .str conf.plugin), ("plugin", .null),
        ("config", .null), ("patch", .null)])) := by
    rw [hstdin]
    unfold cleanupPatch
    rw [if_pos hsafe]
    rfl
  unfold generateDownstream
  rw [hren, hclean]
  rcases hout with rfl | ⟨pk, rfl⟩ | ⟨xs, rfl⟩
  · obtain ⟨rk, hr⟩ := MergePatchV_obj_patch_ok _ hbase []
    dsimp only [patchParse]
    rw [show mergePatchRaw (some (conf.config.getD (.obj [])))
        (some (.obj [])) =
      MergePatchV (conf.config.getD (.obj [])) (.obj []) from rfl, hr]
    obtain ⟨f, hf⟩ := MergePatchV_from_obj_ok
      (mergeKVs kvs [("type", .str conf.plugin), ("plugin", .null),
        ("config", .null), ("patch", .null)]) (.obj rk) (Or.inl ⟨_, rfl⟩)
    refine ⟨f, ?_⟩
    dsimp only
    rw [hf]
  · obtain ⟨rk, hr⟩ := MergePatchV_obj_patch_ok _ hbase pk
    dsimp only [patchParse]
    rw [show mergePatchRaw (some (conf.config.getD (.obj [])))
        (some (.obj pk)) =
      MergePatchV (conf.config.getD (.obj [])) (.obj pk) from rfl, hr]
    obtain ⟨f, hf⟩ := MergePatchV_from_obj_ok
      (mergeKVs kvs [("type", .str conf.plugin), ("plugin", .null),
        ("config", .null), ("patch", .null)]) (.obj rk) (Or.inl ⟨_, rfl⟩)
    refine ⟨f, ?_⟩
    dsimp only
    rw [hf]
  · dsimp only [patchParse]
    rw [show mergePatchRaw (some (conf.config.getD (.obj [])))
        (some (.arr xs)) =
      MergePatchV (conf.config.getD (.obj [])) (.arr xs) from rfl,
      MergePatchV_arr_patch_ok _ hbase xs]
    obtain ⟨f, hf⟩ := MergePatchV_from_obj_ok
      (mergeKVs kvs [("type", .str conf.plugin), ("plugin", .null),
        ("config", .null), ("patch", .null)]) (.arr (pruneArr xs))
      (Or.inr ⟨_, rfl⟩)
    refine ⟨f, ?_⟩
    dsimp only
    rw [hf]

/-- Witness for C8 (amended): the envelope
`{"type":"gator","plugin":"p","patch":"{}"}` whose template renders the
object `{}` — every merge stage succeeds. -/
theorem c8_stages_succeed_on_valid_inputs_witness :
    ∃ f, generateDownstream
        (fun t _ => if t == "{}" then .ok (.val (.obj [])) else .ok .invalid)
        { patch := "{}", plugin := "p",
          stdin := .obj [("type", .str "gator"), ("plugin", .str "p"),
            ("patch", .str "{}")] } = .ok f :=
  c8_stages_succeed_on_valid_inputs
    (fun t _ => if t == "{}" then .ok (.val (.obj [])) else .ok .invalid)
    [("type", .str "gator"), ("plugin", .str "p"), ("patch", .str "{}")]
    { patch := "{}", plugin := "p",
      stdin := .obj [("type", .str "gator"), ("plugin", .str "p"),
        ("patch", .str "{}")] }
    (.val (.obj []))
    rfl rfl rfl (Or.inr (Or.inl ⟨[], rfl⟩))
